import Mathlib

/-!
Verification of the aggregate energy-service demand calibration and
projection algorithm of the demand-side sectors (buildings, transport)
of gcam-core, shallowly embedded from
`src/objects/sectors/source/building_dmd_sector.cpp` and
`src/objects/sectors/source/tran_sector.cpp`.

C++ `double` arithmetic is modelled over the real numbers, with the
library function `pow` modelled as `Real.rpow` (the `^` below on reals).
Period-indexed member vectors are modelled as functions from period
numbers to reals; a statement mutating one slot becomes a functional
update.  Logging side effects are modelled as structured diagnostic
values returned alongside the new state.
-/

namespace GcamDemand

open Real

/-- Functional update of one slot of a period-indexed vector. -/
def upd (f : ℕ → ℝ) (i : ℕ) (v : ℝ) : ℕ → ℝ :=
  fun j => if j = i then v else f j

theorem upd_same (f : ℕ → ℝ) (i : ℕ) (v : ℝ) : upd f i v i = v := by
  simp [upd]

theorem upd_other (f : ℕ → ℝ) (i j : ℕ) (v : ℝ) (h : j ≠ i) : upd f i v j = f j := by
  simp [upd, h]

/-- State of a `BuildingDemandSector` (the simple strategy), with the
fields that `aggdemand` and `initCalc` read and write.  `baseScaler`
is constructed at `-1` (the unset sentinel) and `baseService` is
resized to `-1` in every period (the "no calibration override"
sentinel), as in the constructor `BuildingDemandSector::BuildingDemandSector`. -/
structure BuildingState where
  baseScaler : ℝ
  baseService : ℕ → ℝ
  pElasticity : ℕ → ℝ
  iElasticity : ℕ → ℝ
  perCapitaBased : Bool
  sectorprice : ℕ → ℝ
  servicePreTechChange : ℕ → ℝ
  service : ℕ → ℝ

/-- A warning-level diagnostic emitted by `BuildingDemandSector::initCalc`,
carrying the data interpolated into the log line: the period, the sector
name and the region name. -/
structure BuildingWarning where
  period : ℕ
  sector : String
  region : String
deriving DecidableEq

/-- `BuildingDemandSector::initCalc` (the scaler-fallback part): if
`baseScaler` is still below zero it is set to `1` and a warning naming
the sector and region is logged; otherwise nothing happens.  The degree
day bookkeeping and the call up to `Sector::initCalc` carry no
algorithmic content for the demand engine and are omitted. -/
noncomputable def BuildingDemandSector.initCalc (s : BuildingState) (period : ℕ)
    (name regionName : String) : BuildingState × Option BuildingWarning :=
  if s.baseScaler < 0 then
    ({ s with baseScaler := 1 }, some ⟨period, name, regionName⟩)
  else
    (s, none)

/-- `BuildingDemandSector::aggdemand`, translated statement by statement.
`scaledGdpPerCapita` and `scaledTotalGDP` stand for the values obtained
from the GDP collaborator for this period.  The final calls
`setServiceDemand`, `setoutput` and `sumOutput` forward
`service[period]` to external collaborators and are outside the core. -/
noncomputable def BuildingDemandSector.aggdemand (s : BuildingState)
    (scaledGdpPerCapita scaledTotalGDP : ℝ) (period : ℕ) : BuildingState :=
  let priceRatio : ℝ :=
    if period > 1 then s.sectorprice period / s.sectorprice (period - 1) else 1
  if s.baseService period ≥ 0 then
    let b0 := s.baseService period / priceRatio ^ s.pElasticity period
    let b1 :=
      if s.perCapitaBased then
        b0 / (scaledGdpPerCapita ^ s.iElasticity period * scaledTotalGDP / scaledGdpPerCapita)
      else
        b0 / scaledTotalGDP ^ s.iElasticity period
    let ser_dmd := s.baseService period
    { s with
      baseScaler := b1
      servicePreTechChange := upd s.servicePreTechChange period ser_dmd
      service := upd s.service period ser_dmd }
  else
    let ser_dmd :=
      if s.perCapitaBased then
        s.baseScaler * priceRatio ^ s.pElasticity period
          * scaledGdpPerCapita ^ s.iElasticity period
          * (scaledTotalGDP / scaledGdpPerCapita)
      else
        s.baseScaler * priceRatio ^ s.pElasticity period
          * scaledTotalGDP ^ s.iElasticity period
    { s with
      servicePreTechChange := upd s.servicePreTechChange period ser_dmd
      service := upd s.service period ser_dmd }

/-- State of a `TranSector` (the segmented strategy), with the fields
that `aggdemand` and `checkSectorCalData` read and write.
`percentLicensed` is the licensed population segment share (resized to
`1.0` by the constructor). -/
structure TranState where
  baseScaler : ℝ
  baseScalerNotLic : ℝ
  percentLicensed : ℕ → ℝ
  pElasticity : ℕ → ℝ
  iElasticity : ℕ → ℝ
  perCapitaBased : Bool
  sectorprice : ℕ → ℝ
  priceRatio : ℝ
  priceRatioNotLic : ℝ
  aeei : ℕ → ℝ
  servicePreTechChange : ℕ → ℝ
  service : ℕ → ℝ
  output : ℕ → ℝ

/-- `TranSector::aggdemand`, translated statement by statement.
`gettimestep` stands for `modeltime->gettimestep`, the number of years
in a period, an external calendar input; `gdp1` is the approximate
scaled aggregate GDP for the period. -/
noncomputable def TranSector.aggdemand (s : TranState) (gettimestep : ℕ → ℝ)
    (scaledGdpPerCapita gdp1 : ℝ) (period : ℕ) : TranState :=
  if period = 0 ∨ period = 1 then
    let priceRatio : ℝ := 1
    let priceRatioNotLic : ℝ := 1
    let baseScaler :=
      if s.perCapitaBased then
        s.service period * s.percentLicensed period
          * scaledGdpPerCapita ^ (-s.iElasticity period) / (gdp1 / scaledGdpPerCapita)
      else
        s.service period * s.percentLicensed period * priceRatio ^ (-s.pElasticity period)
          * gdp1 ^ (-s.iElasticity period)
    let baseScalerNotLic :=
      if s.perCapitaBased then
        s.service period * (1 - s.percentLicensed period)
          * scaledGdpPerCapita ^ (-s.iElasticity period) / (gdp1 / scaledGdpPerCapita)
      else
        s.service period * (1 - s.percentLicensed period)
          * priceRatioNotLic ^ (-s.pElasticity period) * gdp1 ^ (-s.iElasticity period)
    let ser_dmd := s.service period
    let s1 : TranState :=
      { s with
        priceRatio := priceRatio
        priceRatioNotLic := priceRatioNotLic
        baseScaler := baseScaler
        baseScalerNotLic := baseScalerNotLic
        servicePreTechChange := upd s.servicePreTechChange period ser_dmd
        service := upd s.service period ser_dmd }
    { s1 with output := upd s1.output period (s1.service period) }
  else
    let priceRatio := s.sectorprice period / s.sectorprice (period - 1)
    let priceRatioNotLic := s.sectorprice period / s.sectorprice (period - 1)
    let ser_dmd :=
      if s.perCapitaBased then
        (s.baseScaler * priceRatio ^ s.pElasticity period
            * scaledGdpPerCapita ^ s.iElasticity period
          + s.baseScalerNotLic * priceRatioNotLic ^ s.pElasticity period
            * scaledGdpPerCapita ^ s.iElasticity period)
          * (gdp1 / scaledGdpPerCapita)
      else
        s.baseScaler * priceRatio ^ s.pElasticity period * gdp1 ^ s.iElasticity period
    let s1 : TranState :=
      { s with
        priceRatio := priceRatio
        priceRatioNotLic := priceRatioNotLic
        servicePreTechChange := upd s.servicePreTechChange period ser_dmd
        service := upd s.service period
          (ser_dmd / (1 + s.aeei period) ^ gettimestep period) }
    { s1 with output := upd s1.output period (s1.service period) }

/-- A debug-level diagnostic emitted by `TranSector::checkSectorCalData`,
carrying the data interpolated into the log line: the scale factor
applied, the region name and the sector name. -/
structure CalScaleDiag where
  scaleFactor : ℝ
  region : String
  sector : String

/-- `TranSector::checkSectorCalData`: when all inputs to the sector are
fixed for the period, `service[period]` is overwritten by the calibrated
output total and a debug diagnostic records the scale factor; otherwise
nothing happens.  `inputsAllFixed` and `calOutput` stand for the
external oracle calls `inputsAllFixed(period, "allInputs")` and
`getCalOutput(period)`. -/
noncomputable def TranSector.checkSectorCalData (s : TranState)
    (inputsAllFixed : Bool) (calOutput : ℝ) (period : ℕ)
    (regionName name : String) : TranState × Option CalScaleDiag :=
  if inputsAllFixed then
    ({ s with service := upd s.service period calOutput },
     some ⟨calOutput / s.service period, regionName, name⟩)
  else
    (s, none)

/-! ### Concrete states used by witnesses and counterexamples -/

/-- A concrete building-sector state: calibration data `100` in every
period, aggregate-GDP mode, unit prices, elasticities `1`. -/
noncomputable def buildingEx : BuildingState :=
  { baseScaler := -1
    baseService := fun _ => 100
    pElasticity := fun _ => 1
    iElasticity := fun _ => 1
    perCapitaBased := false
    sectorprice := fun _ => 1
    servicePreTechChange := fun _ => 0
    service := fun _ => 0 }

/-- A concrete building-sector state in a projection configuration:
every `baseService` slot holds the `-1` sentinel, `baseScaler` already
fitted to `10`. -/
noncomputable def buildingProjEx : BuildingState :=
  { baseScaler := 10
    baseService := fun _ => -1
    pElasticity := fun _ => 1
    iElasticity := fun _ => 1
    perCapitaBased := false
    sectorprice := fun _ => 1
    servicePreTechChange := fun _ => 0
    service := fun _ => 0 }

/-! ### Claims about the simple (building) strategy -/

/-- Claim C1: for the simple strategy, in a period with
`baseService[p] >= 0` (a calibration period), `aggdemand` passes the
observed value through unchanged into both `servicePreTechChange[p]`
and `service[p]`, and refits `baseScaler` to
`baseService[p] / priceRatio^pElasticity[p]` further divided by
`gdpPerCapita^iElasticity[p] * (gdpAggregate/gdpPerCapita)` when
per-capita based, else by `gdpAggregate^iElasticity[p]`. -/
theorem C1_simple_calibration (s : BuildingState) (gpc gdp : ℝ) (p : ℕ)
    (h : s.baseService p ≥ 0) :
    (BuildingDemandSector.aggdemand s gpc gdp p).servicePreTechChange p = s.baseService p ∧
    (BuildingDemandSector.aggdemand s gpc gdp p).service p = s.baseService p ∧
    (BuildingDemandSector.aggdemand s gpc gdp p).baseScaler =
      (if s.perCapitaBased then
        s.baseService p
          / (if p > 1 then s.sectorprice p / s.sectorprice (p - 1) else 1) ^ s.pElasticity p
          / (gpc ^ s.iElasticity p * (gdp / gpc))
      else
        s.baseService p
          / (if p > 1 then s.sectorprice p / s.sectorprice (p - 1) else 1) ^ s.pElasticity p
          / gdp ^ s.iElasticity p) := by
  unfold BuildingDemandSector.aggdemand
  rw [if_pos h]
  refine ⟨upd_same _ _ _, upd_same _ _ _, ?_⟩
  by_cases hc : s.perCapitaBased <;> simp [hc, mul_div_assoc]

/-- Witness for C1 at a concrete calibration input. -/
theorem C1_simple_calibration_witness :
    buildingEx.baseService 1 ≥ 0 ∧
    (BuildingDemandSector.aggdemand buildingEx 2 4 1).service 1 = 100 := by
  have h : buildingEx.baseService 1 ≥ 0 := by norm_num [buildingEx]
  have hmain := (C1_simple_calibration buildingEx 2 4 1 h).2.1
  refine ⟨h, ?_⟩
  rw [hmain]
  norm_num [buildingEx]

/-- Claim C2: for the simple strategy, in a period with
`baseService[p] < 0` (a projection period), `aggdemand` sets
`service[p] = servicePreTechChange[p]` to the projection formula, with
`priceRatio = priceCurr/pricePrev` for `p > 1` and `1` otherwise, and
no efficiency trend is applied. -/
theorem C2_simple_projection (s : BuildingState) (gpc gdp : ℝ) (p : ℕ)
    (h : s.baseService p < 0) :
    (BuildingDemandSector.aggdemand s gpc gdp p).servicePreTechChange p =
      (BuildingDemandSector.aggdemand s gpc gdp p).service p ∧
    (BuildingDemandSector.aggdemand s gpc gdp p).service p =
      (if s.perCapitaBased then
        s.baseScaler
          * (if p > 1 then s.sectorprice p / s.sectorprice (p - 1) else 1) ^ s.pElasticity p
          * gpc ^ s.iElasticity p * (gdp / gpc)
      else
        s.baseScaler
          * (if p > 1 then s.sectorprice p / s.sectorprice (p - 1) else 1) ^ s.pElasticity p
          * gdp ^ s.iElasticity p) := by
  unfold BuildingDemandSector.aggdemand
  rw [if_neg (not_le.mpr h)]
  constructor
  · simp [upd_same]
  · by_cases hc : s.perCapitaBased <;> simp [hc, upd_same]

/-- Witness for C2 at a concrete projection input. -/
theorem C2_simple_projection_witness :
    buildingProjEx.baseService 2 < 0 ∧
    (BuildingDemandSector.aggdemand buildingProjEx 2 4 2).service 2 = 40 := by
  have h : buildingProjEx.baseService 2 < 0 := by norm_num [buildingProjEx]
  have hmain := (C2_simple_projection buildingProjEx 2 4 2 h).2
  refine ⟨h, ?_⟩
  rw [hmain]
  norm_num [buildingProjEx, Real.rpow_one]

/-! ### Claims about the segmented (transport) strategy -/

/-- A concrete transport-sector state: fully licensed segment, zero
elasticities, unit prices, zero trend rate, base service `100`, both
scalers already at `1`. -/
noncomputable def tranEx : TranState :=
  { baseScaler := 1
    baseScalerNotLic := 1
    percentLicensed := fun _ => 1
    pElasticity := fun _ => 0
    iElasticity := fun _ => 0
    perCapitaBased := false
    sectorprice := fun _ => 1
    priceRatio := 1
    priceRatioNotLic := 1
    aeei := fun _ => 0
    servicePreTechChange := fun _ => 0
    service := fun _ => 100
    output := fun _ => 0 }

/-- Claim C3: for the segmented strategy, periods `0` and `1` are always
calibration periods: `aggdemand` sets both price-ratio snapshots to `1`,
fits `baseScaler` from `service[p] * percentLicensed[p]` and
`baseScalerNotLic` from `service[p] * (1 - percentLicensed[p])` (in the
per-capita or aggregate income form as configured), and passes
`service[p]` through unchanged with
`servicePreTechChange[p] = service[p]`. -/
theorem C3_segmented_calibration (s : TranState) (ts : ℕ → ℝ) (gpc gdp1 : ℝ) (p : ℕ)
    (h : p = 0 ∨ p = 1) :
    (TranSector.aggdemand s ts gpc gdp1 p).priceRatio = 1 ∧
    (TranSector.aggdemand s ts gpc gdp1 p).priceRatioNotLic = 1 ∧
    (TranSector.aggdemand s ts gpc gdp1 p).baseScaler =
      (if s.perCapitaBased then
        s.service p * s.percentLicensed p * gpc ^ (-s.iElasticity p) / (gdp1 / gpc)
      else
        s.service p * s.percentLicensed p * gdp1 ^ (-s.iElasticity p)) ∧
    (TranSector.aggdemand s ts gpc gdp1 p).baseScalerNotLic =
      (if s.perCapitaBased then
        s.service p * (1 - s.percentLicensed p) * gpc ^ (-s.iElasticity p) / (gdp1 / gpc)
      else
        s.service p * (1 - s.percentLicensed p) * gdp1 ^ (-s.iElasticity p)) ∧
    (TranSector.aggdemand s ts gpc gdp1 p).service p = s.service p ∧
    (TranSector.aggdemand s ts gpc gdp1 p).servicePreTechChange p = s.service p := by
  unfold TranSector.aggdemand
  rw [if_pos h]
  by_cases hc : s.perCapitaBased <;> simp [hc, upd_same, Real.one_rpow]

/-- Witness for C3 at a concrete calibration input. -/
theorem C3_segmented_calibration_witness :
    ((0 : ℕ) = 0 ∨ (0 : ℕ) = 1) ∧
    (TranSector.aggdemand tranEx (fun _ => 1) 2 4 0).service 0 = 100 ∧
    (TranSector.aggdemand tranEx (fun _ => 1) 2 4 0).baseScaler = 100 := by
  have h : (0 : ℕ) = 0 ∨ (0 : ℕ) = 1 := Or.inl rfl
  have hmain := C3_segmented_calibration tranEx (fun _ => 1) 2 4 0 h
  refine ⟨h, ?_, ?_⟩
  · rw [hmain.2.2.2.2.1]; norm_num [tranEx]
  · rw [hmain.2.2.1]; norm_num [tranEx, Real.rpow_zero]

/-- Counterexample to claim C4 as stated: in aggregate-GDP mode
(`perCapitaBased = false`) the projection branch of
`TranSector::aggdemand` uses only the licensed scaler term; the claimed
sum of both segment contributions does not hold when
`baseScalerNotLic` is nonzero.  At the concrete state `tranEx` (zero
elasticities, unit prices, both scalers `1`) the code yields
`servicePreTechChange[2] = 1` while the claimed two-segment sum is `2`. -/
theorem C4_counterexample :
    ¬ ((TranSector.aggdemand tranEx (fun _ => 1) 2 4 2).servicePreTechChange 2 =
        tranEx.baseScaler
          * (tranEx.sectorprice 2 / tranEx.sectorprice 1) ^ tranEx.pElasticity 2
          * (4 : ℝ) ^ tranEx.iElasticity 2
        + tranEx.baseScalerNotLic
          * (tranEx.sectorprice 2 / tranEx.sectorprice 1) ^ tranEx.pElasticity 2
          * (4 : ℝ) ^ tranEx.iElasticity 2) := by
  norm_num [TranSector.aggdemand, tranEx, upd, Real.rpow_zero]

/-- Claim C4 as amended: for every period `p >= 2`, the segmented
strategy sets `servicePreTechChange[p]` to the sum of the licensed and
not-licensed segment terms scaled by `gdpAggregate/gdpPerCapita` in
per-capita mode, but in aggregate-GDP mode to the licensed term
`baseScaler * priceRatio^pElasticity[p] * gdpAggregate^iElasticity[p]`
alone (the not-licensed scaler does not contribute); then
`service[p] = servicePreTechChange[p] / (1+trendRate[p])^timestepLength(p)`
and `output[p] = service[p]`. -/
theorem C4_segmented_projection (s : TranState) (ts : ℕ → ℝ) (gpc gdp1 : ℝ) (p : ℕ)
    (h : 2 ≤ p) :
    (TranSector.aggdemand s ts gpc gdp1 p).servicePreTechChange p =
      (if s.perCapitaBased then
        (s.baseScaler * (s.sectorprice p / s.sectorprice (p - 1)) ^ s.pElasticity p
            * gpc ^ s.iElasticity p
          + s.baseScalerNotLic * (s.sectorprice p / s.sectorprice (p - 1)) ^ s.pElasticity p
            * gpc ^ s.iElasticity p)
          * (gdp1 / gpc)
      else
        s.baseScaler * (s.sectorprice p / s.sectorprice (p - 1)) ^ s.pElasticity p
          * gdp1 ^ s.iElasticity p) ∧
    (TranSector.aggdemand s ts gpc gdp1 p).service p =
      (TranSector.aggdemand s ts gpc gdp1 p).servicePreTechChange p
        / (1 + s.aeei p) ^ ts p ∧
    (TranSector.aggdemand s ts gpc gdp1 p).output p =
      (TranSector.aggdemand s ts gpc gdp1 p).service p := by
  have hne : ¬(p = 0 ∨ p = 1) := by omega
  unfold TranSector.aggdemand
  rw [if_neg hne]
  by_cases hc : s.perCapitaBased <;> simp [hc, upd_same]

/-- Witness for the amended C4 at a concrete projection input. -/
theorem C4_segmented_projection_witness :
    (2 : ℕ) ≤ 2 ∧
    (TranSector.aggdemand tranEx (fun _ => 1) 2 4 2).servicePreTechChange 2 = 1 ∧
    (TranSector.aggdemand tranEx (fun _ => 1) 2 4 2).service 2 = 1 := by
  have h : (2 : ℕ) ≤ 2 := le_refl 2
  have hmain := C4_segmented_projection tranEx (fun _ => 1) 2 4 2 h
  have hpre : (TranSector.aggdemand tranEx (fun _ => 1) 2 4 2).servicePreTechChange 2 = 1 := by
    rw [hmain.1]; norm_num [tranEx, Real.rpow_zero]
  refine ⟨h, hpre, ?_⟩
  rw [hmain.2.1, hpre]
  norm_num [tranEx, Real.rpow_one]

/-! ### Frame effect, fallback and reconciliation claims -/

/-- Claim C5: a projection-period invocation of `aggdemand` leaves
`baseScaler` (and, for the segmented strategy, `baseScalerNotLic`) and
`baseService` unchanged, and consequently two projection-period
invocations with identical price ratio, GDP-per-capita, aggregate GDP,
elasticity and trend inputs yield identical `service` results. -/
theorem C5_scaler_stability (sB : BuildingState) (sT : TranState) (ts : ℕ → ℝ)
    (gpc gdp : ℝ) (p q : ℕ)
    (hBp : sB.baseService p < 0) (hBq : sB.baseService q < 0)
    (hp2 : 1 < p) (hq2 : 1 < q)
    (hprB : sB.sectorprice p / sB.sectorprice (p - 1) = sB.sectorprice q / sB.sectorprice (q - 1))
    (hpeB : sB.pElasticity p = sB.pElasticity q)
    (hieB : sB.iElasticity p = sB.iElasticity q)
    (hprT : sT.sectorprice p / sT.sectorprice (p - 1) = sT.sectorprice q / sT.sectorprice (q - 1))
    (hpeT : sT.pElasticity p = sT.pElasticity q)
    (hieT : sT.iElasticity p = sT.iElasticity q)
    (haeei : sT.aeei p = sT.aeei q)
    (hts : ts p = ts q) :
    (BuildingDemandSector.aggdemand sB gpc gdp p).baseScaler = sB.baseScaler ∧
    (BuildingDemandSector.aggdemand sB gpc gdp p).baseService = sB.baseService ∧
    (TranSector.aggdemand sT ts gpc gdp p).baseScaler = sT.baseScaler ∧
    (TranSector.aggdemand sT ts gpc gdp p).baseScalerNotLic = sT.baseScalerNotLic ∧
    (BuildingDemandSector.aggdemand sB gpc gdp p).service p =
      (BuildingDemandSector.aggdemand sB gpc gdp q).service q ∧
    (TranSector.aggdemand sT ts gpc gdp p).service p =
      (TranSector.aggdemand sT ts gpc gdp q).service q := by
  have hTp : ¬(p = 0 ∨ p = 1) := by omega
  have hTq : ¬(q = 0 ∨ q = 1) := by omega
  have hBp' : ¬(sB.baseService p ≥ 0) := not_le.mpr hBp
  have hBq' : ¬(sB.baseService q ≥ 0) := not_le.mpr hBq
  unfold BuildingDemandSector.aggdemand TranSector.aggdemand
  rw [if_neg hBp', if_neg hBq', if_neg hTp, if_neg hTq, if_pos hp2, if_pos hq2]
  refine ⟨rfl, rfl, rfl, rfl, ?_, ?_⟩
  · by_cases hc : sB.perCapitaBased <;>
      simp [hc, upd_same, hprB, hpeB, hieB]
  · by_cases hc : sT.perCapitaBased <;>
      simp [hc, upd_same, hprT, hpeT, hieT, haeei, hts]

/-- Witness for C5 at concrete projection periods 2 and 3 with unit
prices and constant elasticities. -/
theorem C5_scaler_stability_witness :
    buildingProjEx.baseService 2 < 0 ∧
    (BuildingDemandSector.aggdemand buildingProjEx 2 4 2).baseScaler =
      buildingProjEx.baseScaler ∧
    (BuildingDemandSector.aggdemand buildingProjEx 2 4 2).service 2 =
      (BuildingDemandSector.aggdemand buildingProjEx 2 4 3).service 3 := by
  have h1 : buildingProjEx.baseService 2 < 0 := by norm_num [buildingProjEx]
  have h2 : buildingProjEx.baseService 3 < 0 := by norm_num [buildingProjEx]
  have hmain := C5_scaler_stability buildingProjEx tranEx (fun _ => 1) 2 4 2 3
    h1 h2 (by norm_num) (by norm_num)
    (by norm_num [buildingProjEx]) rfl rfl
    (by norm_num [tranEx]) rfl rfl rfl rfl
  exact ⟨h1, hmain.1, hmain.2.2.2.2.1⟩

/-- A concrete building-sector state whose scaler is still at the
unset sentinel and whose base service holds the projection sentinel in
every period. -/
noncomputable def buildingUnsetEx : BuildingState :=
  { baseScaler := -1
    baseService := fun _ => -1
    pElasticity := fun _ => 1
    iElasticity := fun _ => 1
    perCapitaBased := false
    sectorprice := fun _ => 1
    servicePreTechChange := fun _ => 0
    service := fun _ => 0 }

/-- Claim C6: when `baseScaler` is still at its negative unset sentinel,
`initCalc` substitutes the fallback value `1` and emits a warning-level
diagnostic naming the sector and region, and the subsequent
projection-period demand is non-negative (and a real number, so finite)
given positive drivers and prices. -/
theorem C6_scaler_fallback (s : BuildingState) (gpc gdp : ℝ) (p : ℕ)
    (name region : String)
    (hunset : s.baseScaler < 0) (hproj : s.baseService p < 0)
    (hgpc : 0 < gpc) (hgdp : 0 < gdp)
    (hpp : 0 < s.sectorprice p) (hpm : 0 < s.sectorprice (p - 1)) :
    (BuildingDemandSector.initCalc s p name region).1.baseScaler = 1 ∧
    (BuildingDemandSector.initCalc s p name region).2 = some ⟨p, name, region⟩ ∧
    0 ≤ (BuildingDemandSector.aggdemand
          (BuildingDemandSector.initCalc s p name region).1 gpc gdp p).service p := by
  unfold BuildingDemandSector.initCalc
  rw [if_pos hunset]
  refine ⟨rfl, rfl, ?_⟩
  unfold BuildingDemandSector.aggdemand
  rw [if_neg (not_le.mpr hproj)]
  have hr : (0 : ℝ) < (if p > 1 then s.sectorprice p / s.sectorprice (p - 1) else 1) := by
    split
    · exact div_pos hpp hpm
    · exact one_pos
  by_cases hc : s.perCapitaBased
  · simp only [hc, if_true, upd_same]
    refine le_of_lt ?_
    exact mul_pos (mul_pos (mul_pos one_pos (Real.rpow_pos_of_pos hr _))
      (Real.rpow_pos_of_pos hgpc _)) (div_pos hgdp hgpc)
  · simp only [hc, if_false, upd_same]
    refine le_of_lt ?_
    exact mul_pos (mul_pos one_pos (Real.rpow_pos_of_pos hr _))
      (Real.rpow_pos_of_pos hgdp _)

/-- Witness for C6 at a concrete unset-scaler state. -/
theorem C6_scaler_fallback_witness :
    buildingUnsetEx.baseScaler < 0 ∧
    (BuildingDemandSector.initCalc buildingUnsetEx 2 "building" "regionA").1.baseScaler = 1 ∧
    (BuildingDemandSector.initCalc buildingUnsetEx 2 "building" "regionA").2 =
      some ⟨2, "building", "regionA"⟩ ∧
    0 ≤ (BuildingDemandSector.aggdemand
          (BuildingDemandSector.initCalc buildingUnsetEx 2 "building" "regionA").1
          2 4 2).service 2 := by
  have h1 : buildingUnsetEx.baseScaler < 0 := by norm_num [buildingUnsetEx]
  have h2 : buildingUnsetEx.baseService 2 < 0 := by norm_num [buildingUnsetEx]
  have hmain := C6_scaler_fallback buildingUnsetEx 2 4 2 "building" "regionA"
    h1 h2 (by norm_num) (by norm_num)
    (by norm_num [buildingUnsetEx]) (by norm_num [buildingUnsetEx])
  exact ⟨h1, hmain.1, hmain.2.1, hmain.2.2⟩

/-- Claim C7: `checkSectorCalData` overwrites `service[p]` with the
calibrated output total and emits a diagnostic recording the scale
factor `calibratedTotal / prior service[p]` exactly when all inputs are
fixed; otherwise the state is returned unchanged with no diagnostic.
The operation is a total function — it is never fatal. -/
theorem C7_cal_data_check (s : TranState) (fixed : Bool) (cal : ℝ) (p : ℕ)
    (regionName name : String) :
    (fixed = true →
      (TranSector.checkSectorCalData s fixed cal p regionName name).1 =
        { s with service := upd s.service p cal } ∧
      (TranSector.checkSectorCalData s fixed cal p regionName name).2 =
        some ⟨cal / s.service p, regionName, name⟩) ∧
    (fixed = false →
      TranSector.checkSectorCalData s fixed cal p regionName name = (s, none)) := by
  unfold TranSector.checkSectorCalData
  cases fixed <;> simp

/-- Witness for C7 with all inputs fixed at a concrete state. -/
theorem C7_cal_data_check_witness :
    (TranSector.checkSectorCalData tranEx true 50 2 "regionA" "trans").1 =
      { tranEx with service := upd tranEx.service 2 50 } ∧
    (TranSector.checkSectorCalData tranEx true 50 2 "regionA" "trans").2 =
      some ⟨50 / tranEx.service 2, "regionA", "trans"⟩ :=
  (C7_cal_data_check tranEx true 50 2 "regionA" "trans").1 rfl

/-! ### Division-by-zero driver, elasticity sign, segment conservation -/

/-- A concrete per-capita building-sector state in a projection
configuration, with previously computed service values `-7`. -/
noncomputable def buildingZeroGpcEx : BuildingState :=
  { baseScaler := 3
    baseService := fun _ => -1
    pElasticity := fun _ => 1
    iElasticity := fun _ => 1
    perCapitaBased := true
    sectorprice := fun _ => 1
    servicePreTechChange := fun _ => -7
    service := fun _ => -7 }

/-- Counterexample to claim C8 as stated: `aggdemand` contains no check
on `gdpPerCapita` and no error path; invoked in per-capita mode with
`gdpPerCapita = 0` it does not abort but computes the formula and writes
the result into `service[p]` (here the slot changes from the prior `-7`,
so a write did occur; in C++ `double` arithmetic the written value is
the non-finite result of the division by zero, silently propagated). -/
theorem C8_counterexample :
    buildingZeroGpcEx.perCapitaBased = true ∧
    (BuildingDemandSector.aggdemand buildingZeroGpcEx 0 4 2).service 2 ≠
      buildingZeroGpcEx.service 2 := by
  constructor
  · rfl
  · norm_num [BuildingDemandSector.aggdemand, buildingZeroGpcEx, upd, Real.rpow_one,
      Real.one_rpow]

/-- Claim C8 as amended: `aggdemand` performs no validation of
`gdpPerCapita`; in per-capita mode it evaluates the power-law formula
and writes the result into both `service[p]` and
`servicePreTechChange[p]` unconditionally, for every `gdpPerCapita`
value including `0` — no abort or error path exists (in C++ the zero
divisor silently propagates a non-finite value downstream). -/
theorem C8_no_zero_gpc_guard (s : BuildingState) (gpc gdp : ℝ) (p : ℕ)
    (hproj : s.baseService p < 0) (hc : s.perCapitaBased = true) :
    (BuildingDemandSector.aggdemand s gpc gdp p).service p =
      s.baseScaler
        * (if p > 1 then s.sectorprice p / s.sectorprice (p - 1) else 1) ^ s.pElasticity p
        * gpc ^ s.iElasticity p * (gdp / gpc) ∧
    (BuildingDemandSector.aggdemand s gpc gdp p).servicePreTechChange p =
      (BuildingDemandSector.aggdemand s gpc gdp p).service p := by
  unfold BuildingDemandSector.aggdemand
  rw [if_neg (not_le.mpr hproj)]
  constructor
  · simp [hc, upd_same]
  · simp [upd_same]

/-- Witness for the amended C8 with the driver exactly `0`. -/
theorem C8_no_zero_gpc_guard_witness :
    buildingZeroGpcEx.baseService 2 < 0 ∧
    buildingZeroGpcEx.perCapitaBased = true ∧
    (BuildingDemandSector.aggdemand buildingZeroGpcEx 0 4 2).service 2 =
      buildingZeroGpcEx.baseScaler
        * (if 2 > 1 then buildingZeroGpcEx.sectorprice 2 / buildingZeroGpcEx.sectorprice 1
           else 1) ^ buildingZeroGpcEx.pElasticity 2
        * (0 : ℝ) ^ buildingZeroGpcEx.iElasticity 2 * (4 / 0 : ℝ) := by
  have h1 : buildingZeroGpcEx.baseService 2 < 0 := by norm_num [buildingZeroGpcEx]
  have h2 : buildingZeroGpcEx.perCapitaBased = true := rfl
  exact ⟨h1, h2, (C8_no_zero_gpc_guard buildingZeroGpcEx 0 4 2 h1 h2).1⟩

/-- A concrete building-sector state with a negative own-price
elasticity and a positive fitted scaler. -/
noncomputable def buildingElastEx : BuildingState :=
  { baseScaler := 3
    baseService := fun _ => -1
    pElasticity := fun _ => -1
    iElasticity := fun _ => 0
    perCapitaBased := false
    sectorprice := fun _ => 1
    servicePreTechChange := fun _ => 0
    service := fun _ => 0 }

/-- Claim C9: in a projection period with `pElasticity[p] < 0`, a
positive fitted `baseScaler`, fixed positive income drivers and a fixed
positive previous price, raising the current price (hence the price
ratio) strictly decreases the computed `service[p]`. -/
theorem C9_price_elasticity_sign (s : BuildingState) (gpc gdp c1 c2 : ℝ) (p : ℕ)
    (hproj : s.baseService p < 0) (hp2 : 1 < p)
    (hpe : s.pElasticity p < 0) (hbs : 0 < s.baseScaler)
    (hgpc : 0 < gpc) (hgdp : 0 < gdp)
    (hprev : 0 < s.sectorprice (p - 1))
    (hc1 : 0 < c1) (hlt : c1 < c2) :
    (BuildingDemandSector.aggdemand
        { s with sectorprice := upd s.sectorprice p c2 } gpc gdp p).service p <
    (BuildingDemandSector.aggdemand
        { s with sectorprice := upd s.sectorprice p c1 } gpc gdp p).service p := by
  have hne : p - 1 ≠ p := by omega
  unfold BuildingDemandSector.aggdemand
  rw [if_neg (not_le.mpr hproj), if_neg (not_le.mpr hproj), if_pos hp2, if_pos hp2]
  have hothers1 : upd s.sectorprice p c1 (p - 1) = s.sectorprice (p - 1) :=
    upd_other _ _ _ _ hne
  have hothers2 : upd s.sectorprice p c2 (p - 1) = s.sectorprice (p - 1) :=
    upd_other _ _ _ _ hne
  have hr1 : 0 < c1 / s.sectorprice (p - 1) := div_pos hc1 hprev
  have hrlt : c1 / s.sectorprice (p - 1) < c2 / s.sectorprice (p - 1) :=
    (div_lt_div_iff_of_pos_right hprev).mpr hlt
  have hpow : (c2 / s.sectorprice (p - 1)) ^ s.pElasticity p
      < (c1 / s.sectorprice (p - 1)) ^ s.pElasticity p :=
    Real.rpow_lt_rpow_of_neg hr1 hrlt hpe
  by_cases hcap : s.perCapitaBased
  · simp only [hcap, if_true, upd_same, hothers1, hothers2]
    exact mul_lt_mul_of_pos_right
      (mul_lt_mul_of_pos_right (mul_lt_mul_of_pos_left hpow hbs)
        (Real.rpow_pos_of_pos hgpc _))
      (div_pos hgdp hgpc)
  · simp only [hcap, if_false, upd_same, hothers1, hothers2]
    exact mul_lt_mul_of_pos_right (mul_lt_mul_of_pos_left hpow hbs)
      (Real.rpow_pos_of_pos hgdp _)

/-- Witness for C9: doubling the current price at the concrete state
`buildingElastEx` strictly lowers the period-2 service. -/
theorem C9_price_elasticity_sign_witness :
    buildingElastEx.pElasticity 2 < 0 ∧
    (BuildingDemandSector.aggdemand
        { buildingElastEx with sectorprice := upd buildingElastEx.sectorprice 2 2 }
        2 4 2).service 2 <
    (BuildingDemandSector.aggdemand
        { buildingElastEx with sectorprice := upd buildingElastEx.sectorprice 2 1 }
        2 4 2).service 2 := by
  have hpe : buildingElastEx.pElasticity 2 < 0 := by norm_num [buildingElastEx]
  refine ⟨hpe, ?_⟩
  exact C9_price_elasticity_sign buildingElastEx 2 4 1 2 2
    (by norm_num [buildingElastEx]) (by norm_num) hpe
    (by norm_num [buildingElastEx]) (by norm_num) (by norm_num)
    (by norm_num [buildingElastEx]) (by norm_num) (by norm_num)

/-- A concrete building-sector state for the segment-conservation
equivalence: calibration data `100` in periods 0 and 1, projection
sentinel afterwards, zero elasticities, unit prices. -/
noncomputable def buildingC10Ex : BuildingState :=
  { baseScaler := 1
    baseService := fun i => if i ≤ 1 then 100 else -1
    pElasticity := fun _ => 0
    iElasticity := fun _ => 0
    perCapitaBased := false
    sectorprice := fun _ => 1
    servicePreTechChange := fun _ => 0
    service := fun _ => 0 }

/-- A concrete transport-sector state equivalent to `buildingC10Ex`:
fully licensed segment, zero not-licensed scaler, base service `100`. -/
noncomputable def tranC10Ex : TranState :=
  { baseScaler := 1
    baseScalerNotLic := 0
    percentLicensed := fun _ => 1
    pElasticity := fun _ => 0
    iElasticity := fun _ => 0
    perCapitaBased := false
    sectorprice := fun _ => 1
    priceRatio := 1
    priceRatioNotLic := 1
    aeei := fun _ => 0
    servicePreTechChange := fun _ => 0
    service := fun _ => 100
    output := fun _ => 0 }

/-- Claim C10: segment shares always conserve
(`share + (1 - share) = 1`); with a fully licensed segment
(`percentLicensed = 1`) the not-licensed scaler is fitted to `0` in a
calibration period, the fitted licensed scaler coincides with the
simple strategy's scaler under equivalent calibration data, and in a
projection period the segmented demand before the efficiency trend
equals the simple strategy's result under equivalent elasticities and
drivers. -/
theorem C10_segment_conservation (sB : BuildingState) (sT : TranState) (ts : ℕ → ℝ)
    (gpc gdp : ℝ) (p q : ℕ)
    (hlic : ∀ i, sT.percentLicensed i = 1)
    (hcal : p = 0 ∨ p = 1) (hq : 2 ≤ q)
    (hmode : sB.perCapitaBased = sT.perCapitaBased)
    (hpeQ : sB.pElasticity q = sT.pElasticity q)
    (hieP : sB.iElasticity p = sT.iElasticity p)
    (hieQ : sB.iElasticity q = sT.iElasticity q)
    (hprQ : sB.sectorprice q = sT.sectorprice q)
    (hprQ1 : sB.sectorprice (q - 1) = sT.sectorprice (q - 1))
    (hgpc : 0 < gpc) (hgdp : 0 < gdp)
    (hsrv : sB.baseService p = sT.service p)
    (hsrv0 : 0 ≤ sT.service p)
    (hbs : sB.baseScaler = sT.baseScaler)
    (hbsN : sT.baseScalerNotLic = 0)
    (hBq : sB.baseService q < 0) :
    (∀ i, sT.percentLicensed i + (1 - sT.percentLicensed i) = 1) ∧
    (TranSector.aggdemand sT ts gpc gdp p).baseScalerNotLic = 0 ∧
    (BuildingDemandSector.aggdemand sB gpc gdp p).baseScaler =
      (TranSector.aggdemand sT ts gpc gdp p).baseScaler ∧
    (TranSector.aggdemand sT ts gpc gdp q).servicePreTechChange q =
      (BuildingDemandSector.aggdemand sB gpc gdp q).service q := by
  have hTq : ¬(q = 0 ∨ q = 1) := by omega
  have hp1 : ¬(p > 1) := by omega
  have hq1 : q > 1 := by omega
  have hBcal : sB.baseService p ≥ 0 := by rw [hsrv]; exact hsrv0
  have hBq' : ¬(sB.baseService q ≥ 0) := not_le.mpr hBq
  refine ⟨fun i => by ring, ?_, ?_, ?_⟩
  · unfold TranSector.aggdemand
    rw [if_pos hcal]
    by_cases hc : sT.perCapitaBased <;> simp [hc, hlic p]
  · unfold BuildingDemandSector.aggdemand TranSector.aggdemand
    rw [if_pos hcal]
    by_cases hc : sT.perCapitaBased
    · have hX : (0 : ℝ) < gpc ^ sT.iElasticity p := Real.rpow_pos_of_pos hgpc _
      simp [hp1, hmode, hc, hsrv, hieP, hlic p, hsrv0, Real.one_rpow,
        Real.rpow_neg hgpc.le]
      field_simp
    · have hY : (0 : ℝ) < gdp ^ sT.iElasticity p := Real.rpow_pos_of_pos hgdp _
      simp [hp1, hmode, hc, hsrv, hieP, hlic p, hsrv0, Real.one_rpow,
        Real.rpow_neg hgdp.le]
      rw [div_eq_mul_inv]
  · unfold TranSector.aggdemand BuildingDemandSector.aggdemand
    rw [if_neg hTq, if_neg hBq', if_pos hq1]
    by_cases hc : sT.perCapitaBased <;>
      simp [hc, hmode, hbs, hbsN, hpeQ, hieQ, hprQ, hprQ1, upd_same]

/-- Witness for C10 at the concrete equivalent states, calibrating in
period 1 and projecting in period 2. -/
theorem C10_segment_conservation_witness :
    tranC10Ex.percentLicensed 0 + (1 - tranC10Ex.percentLicensed 0) = 1 ∧
    (TranSector.aggdemand tranC10Ex (fun _ => 1) 2 4 1).baseScalerNotLic = 0 ∧
    (BuildingDemandSector.aggdemand buildingC10Ex 2 4 1).baseScaler =
      (TranSector.aggdemand tranC10Ex (fun _ => 1) 2 4 1).baseScaler ∧
    (TranSector.aggdemand tranC10Ex (fun _ => 1) 2 4 2).servicePreTechChange 2 =
      (BuildingDemandSector.aggdemand buildingC10Ex 2 4 2).service 2 := by
  have hmain := C10_segment_conservation buildingC10Ex tranC10Ex (fun _ => 1) 2 4 1 2
    (fun i => rfl) (Or.inr rfl) (by norm_num)
    rfl rfl rfl rfl rfl rfl (by norm_num) (by norm_num)
    (by norm_num [buildingC10Ex, tranC10Ex]) (by norm_num [tranC10Ex])
    rfl rfl (by norm_num [buildingC10Ex])
  exact ⟨hmain.1 0, hmain.2.1, hmain.2.2.1, hmain.2.2.2⟩

end GcamDemand
